import Mathlib

/-!
Verification of the SenSit secrets scanner core against its specification.

The Python sources are shallowly embedded as Lean definitions:
- `models/secret.py` : `Secret`, `Finding`, `Secret.get_score`,
  `Finding.get_confirmed_secrets`.
- `sensit.py` (`main`, exit-code mapping) : `mainExitCode`.
- `validation/ai_validator.py` (`AIValidator.validate_batch` and the
  status-threshold update at lines 179-195) : `AIValidator.validate_batch`,
  `applyAIResult`, `updateStatusFromConfidence`.  The provider round trip
  (network call plus JSON parsing) is abstracted as a function returning
  `Option (List AIResult)`; `none` models a raised provider error or an
  unparsable response, exactly the cases where the code falls back to
  `validated.extend(batch)`.
- `validation/api_validator.py` (`APIValidator.validate_secret`,
  `validate_batch`) : per-type checkers are abstracted as functions
  returning `CheckOutcome`; `CheckOutcome.err` models a checker that raises.
- `core/scanner.py` (`_deduplicate_secrets`, `_validate_secrets`) :
  `SecretsScanner.deduplicate_secrets`, `SecretsScanner.validate_secrets`.
  Python mutates the `Secret` objects in place; the embedding threads the
  updated records positionally, which is equivalent because each list entry
  is a distinct single-writer object.
- `extraction/pattern_matcher.py` (the `Secret(...)` construction at lines
  62-73) : `PatternMatcher.mkSecret`.
- `extraction/entropy_analyzer.py` (`calculate_entropy`, and the
  `Secret(...)` construction at lines 72-83) : `calculate_entropy`,
  `EntropyAnalyzer.mkSecret`.

Numeric fields that are Python floats (`entropy`, `ai_confidence`) are
embedded as rationals, which the comparisons in the code treat exactly;
`calculate_entropy` itself is real-valued because it is built from `log2`.
The `discovered_at` timestamp and scan durations come from the process
clock and play no role in any verified property, so they are omitted from
the record embeddings.
-/

namespace SenSit

/-- Severity enumeration; the Python code stores the strings
"LOW", "MEDIUM", "HIGH", "CRITICAL". -/
inductive Severity where
  | LOW
  | MEDIUM
  | HIGH
  | CRITICAL
deriving DecidableEq

/-- Status enumeration; the Python code stores the strings
"UNVERIFIED", "POSSIBLE", "LIKELY", "CONFIRMED". -/
inductive Status where
  | UNVERIFIED
  | POSSIBLE
  | LIKELY
  | CONFIRMED
deriving DecidableEq

/-- Rank of a severity in the order LOW < MEDIUM < HIGH < CRITICAL. -/
def severityRank : Severity → Nat
  | Severity.LOW => 0
  | Severity.MEDIUM => 1
  | Severity.HIGH => 2
  | Severity.CRITICAL => 3

/-- Rank of a status in the order UNVERIFIED < POSSIBLE < LIKELY < CONFIRMED. -/
def statusRank : Status → Nat
  | Status.UNVERIFIED => 0
  | Status.POSSIBLE => 1
  | Status.LIKELY => 2
  | Status.CONFIRMED => 3

/-- The `Secret` dataclass of `models/secret.py`.  Field defaults follow the
dataclass defaults; `api_details` is a string-keyed mapping embedded as an
association list. -/
structure Secret where
  type : String
  value : String
  location : String
  line_number : Nat := 0
  context : String := ""
  file_type : String := ""
  entropy : ℚ := 0
  regex_match : Bool := false
  ai_confidence : ℚ := 0
  ai_reasoning : String := ""
  api_valid : Option Bool := none
  api_details : List (String × String) := []
  severity : Severity := Severity.MEDIUM
  status : Status := Status.UNVERIFIED
deriving DecidableEq

/-- `Secret.get_score` of `models/secret.py` lines 56-77: composite
0-100 confidence score, capped at 100. -/
def Secret.get_score (s : Secret) : ℚ :=
  let score : ℚ :=
    (if s.regex_match then 20 else 0)
    + (if s.entropy > 4 then 15 else if s.entropy > 3.5 then 10 else 0)
    + s.ai_confidence / 100 * 40
    + (if s.api_valid = some true then 25 else 0)
  min score 100

/-- The `Finding` dataclass of `models/secret.py` (timestamp and duration
omitted, see the file comment). -/
structure Finding where
  target : String
  secrets : List Secret := []
  total_files_scanned : Nat := 0
  total_secrets_found : Nat := 0
deriving DecidableEq

/-- `Finding.get_confirmed_secrets` of `models/secret.py` lines 100-102. -/
def Finding.get_confirmed_secrets (f : Finding) : List Secret :=
  f.secrets.filter (fun s => decide (s.status = Status.CONFIRMED))

/-- Outcome of running `main` in `sensit.py`: the scan either completes with
a `Finding` or is interrupted by the user (`KeyboardInterrupt`). -/
inductive ScanOutcome where
  | completed (finding : Finding)
  | interrupted
deriving DecidableEq

/-- The exit-code mapping of `sensit.py` lines 112-122: exit 2 when
`finding.get_confirmed_secrets()` is nonempty, 1 when any secrets were
found, 0 otherwise, and 130 on interruption. -/
def mainExitCode : ScanOutcome → Nat
  | ScanOutcome.completed f =>
      if f.get_confirmed_secrets ≠ [] then 2
      else if f.secrets ≠ [] then 1
      else 0
  | ScanOutcome.interrupted => 130

/-- One per-secret entry of a parsed AI provider response: the code reads
`ai_result.get('confidence', 0)` and `ai_result.get('reasoning', '')`, so
missing keys are already replaced by these defaults here. -/
structure AIResult where
  confidence : ℚ := 0
  reasoning : String := ""
deriving DecidableEq

/-- The status-threshold update of `ai_validator.py` lines 186-193. -/
def updateStatusFromConfidence (c : ℚ) : Status :=
  if c < 30 then Status.UNVERIFIED
  else if c < 60 then Status.POSSIBLE
  else if c < 85 then Status.LIKELY
  else Status.CONFIRMED

/-- The per-record update of `ai_validator.py` lines 182-193: set
`ai_confidence` and `ai_reasoning` from the parsed result, then set `status`
by the confidence thresholds.  Severity is not touched. -/
def applyAIResult (s : Secret) (r : AIResult) : Secret :=
  { s with
    ai_confidence := r.confidence
    ai_reasoning := r.reasoning
    status := updateStatusFromConfidence r.confidence }

/-- The result-application loop of `ai_validator.py` lines 179-195: the
j-th record of the batch is updated with the j-th parsed result when one
exists, and appended unchanged otherwise. -/
def applyBatchResults : List Secret → List AIResult → List Secret
  | [], _ => []
  | s :: rest, [] => s :: rest
  | s :: rest, r :: rs => applyAIResult s r :: applyBatchResults rest rs

/-- Splitting a list into consecutive batches, as done by
`range(0, len(secrets), batch_size)` with slicing in
`ai_validator.py` line 156.  The fuel argument (instantiated with the list
length) only serves structural termination; each step always consumes the
head, so the fuel is never exhausted. -/
def chunkListAux {α : Type} (bs : Nat) : Nat → List α → List (List α)
  | _, [] => []
  | 0, l => [l]
  | fuel + 1, x :: xs =>
      (x :: xs.take (bs - 1)) :: chunkListAux bs fuel (xs.drop (bs - 1))

/-- `secrets[i:i+batch_size]` slices for `i = 0, bs, 2*bs, ...`. -/
def chunkList {α : Type} (bs : Nat) (l : List α) : List (List α) :=
  chunkListAux bs l.length l

/-- Processing of one batch in `ai_validator.py` lines 158-205: a provider
call that raises, or whose response cannot be parsed, leaves the batch
unchanged (`validated.extend(batch)`); a parsed response is applied
positionally. -/
def processBatch (provider : List Secret → Option (List AIResult))
    (batch : List Secret) : List Secret :=
  match provider batch with
  | some rs => applyBatchResults batch rs
  | none => batch

/-- `AIValidator.validate_batch` of `ai_validator.py` lines 143-208:
passthrough when no provider client is configured, otherwise the
concatenation of the processed batches. -/
def AIValidator.validate_batch (client : Bool) (batch_size : Nat)
    (provider : List Secret → Option (List AIResult))
    (secrets : List Secret) : List Secret :=
  if client then
    ((chunkList batch_size secrets).map (processBatch provider)).flatten
  else secrets

/-- Result of one per-type live checker call in `api_validator.py`:
`ok isValid details` models a normal return of `(is_valid, details)`,
`err msg` models a raised transport or auth error. -/
inductive CheckOutcome where
  | ok (isValid : Bool) (details : List (String × String))
  | err (msg : String)
deriving DecidableEq

/-- `APIValidator.validate_secret` of `api_validator.py` lines 17-51.
`lookup` embeds `validator_map.get(secret.type)`.  On a normal checker
return the code stores `api_valid` and `api_details` and, when valid,
escalates to CONFIRMED and CRITICAL; when the checker raises, the handler
at lines 47-49 only sets `api_valid = None`. -/
def APIValidator.validate_secret
    (lookup : String → Option (Secret → CheckOutcome)) (s : Secret) : Secret :=
  match lookup s.type with
  | none => s
  | some checker =>
    match checker s with
    | CheckOutcome.ok isValid details =>
        let s1 := { s with api_valid := some isValid, api_details := details }
        if isValid then
          { s1 with status := Status.CONFIRMED, severity := Severity.CRITICAL }
        else s1
    | CheckOutcome.err _ => { s with api_valid := none }

/-- `APIValidator.validate_batch` of `api_validator.py` lines 53-56:
`asyncio.gather` over independent per-record validations, each mutating
only its own record, so the batch is the elementwise map. -/
def APIValidator.validate_batch
    (lookup : String → Option (Secret → CheckOutcome))
    (secrets : List Secret) : List Secret :=
  secrets.map (APIValidator.validate_secret lookup)

/-- The deduplication identity key `(secret.type, secret.value,
secret.location)` of `core/scanner.py` line 213. -/
def dedupKey (s : Secret) : String × String × String :=
  (s.type, s.value, s.location)

/-- The seen-set loop of `SecretsScanner._deduplicate_secrets`. -/
def dedupAux : List (String × String × String) → List Secret → List Secret
  | _, [] => []
  | seen, s :: rest =>
      if dedupKey s ∈ seen then dedupAux seen rest
      else s :: dedupAux (dedupKey s :: seen) rest

/-- `SecretsScanner._deduplicate_secrets` of `core/scanner.py`
lines 207-218. -/
def SecretsScanner.deduplicate_secrets (secrets : List Secret) : List Secret :=
  dedupAux [] secrets

/-- `SecretsScanner._validate_secrets` of `core/scanner.py` lines 181-205.
The AI stage (when enabled and a client exists) rewrites the list via
`AIValidator.validate_batch`; the confidence threshold then selects which
records are live-validated, but the function returns the full list
`secrets`, into which the live-validation mutations are visible because the
records are shared objects. -/
def SecretsScanner.validate_secrets
    (enable_ai client : Bool) (batch_size : Nat)
    (provider : List Secret → Option (List AIResult))
    (ai_threshold : ℚ) (enable_api : Bool)
    (lookup : String → Option (Secret → CheckOutcome))
    (secrets : List Secret) : List Secret :=
  if secrets = [] then []
  else
    let aiRan := enable_ai && client
    let secrets1 :=
      if aiRan then AIValidator.validate_batch client batch_size provider secrets
      else secrets
    let hc : Secret → Bool := fun s =>
      if aiRan then decide (ai_threshold ≤ s.ai_confidence) else true
    if enable_api && !(secrets1.filter hc).isEmpty then
      secrets1.map (fun s =>
        if hc s then APIValidator.validate_secret lookup s else s)
    else secrets1

/-- The `Secret(...)` construction of `pattern_matcher.py` lines 62-73:
rule matches carry the rule name as `type`, `regex_match = True` and the
severity configured for the rule. -/
def PatternMatcher.mkSecret (pattern_name matched_value location : String)
    (line_num : Nat) (context file_type : String) (severity : Severity) :
    Secret :=
  { type := pattern_name
    value := matched_value
    location := location
    line_number := line_num
    context := context
    file_type := file_type
    regex_match := true
    severity := severity }

/-- The `Secret(...)` construction of `entropy_analyzer.py` lines 72-83:
entropy matches carry the fixed type "high_entropy_string",
`regex_match = False` and severity MEDIUM. -/
def EntropyAnalyzer.mkSecret (value location : String) (line_num : Nat)
    (context : String) (entropy : ℚ) : Secret :=
  { type := "high_entropy_string"
    value := value
    location := location
    line_number := line_num
    context := context
    entropy := entropy
    regex_match := false
    severity := Severity.MEDIUM }

/-- `EntropyAnalyzer.calculate_entropy` of `entropy_analyzer.py`
lines 16-34: 0.0 for the empty string, otherwise the accumulated
`-= p * log2 p` over the character-frequency table, one term per distinct
character.  Real-valued because the code computes with `math.log2`. -/
noncomputable def calculate_entropy (data : String) : ℝ :=
  if data.toList = [] then 0
  else
    -((data.toList.dedup.map (fun c =>
        ((data.toList.count c : ℝ) / (data.toList.length : ℝ)) *
          Real.logb 2 ((data.toList.count c : ℝ) / (data.toList.length : ℝ)))).sum)

/-! ## Helper lemmas -/

/-- Every status rank is at most the rank of CONFIRMED. -/
lemma statusRank_le_confirmed (st : Status) :
    statusRank st ≤ statusRank Status.CONFIRMED := by
  cases st <;> decide

/-- Every severity rank is at most the rank of CRITICAL. -/
lemma severityRank_le_critical (sev : Severity) :
    severityRank sev ≤ severityRank Severity.CRITICAL := by
  cases sev <;> decide

/-- Batch chunking recombines to the original list. -/
lemma chunkListAux_flatten {α : Type} (bs : Nat) :
    ∀ (fuel : Nat) (l : List α), l.length ≤ fuel →
      (chunkListAux bs fuel l).flatten = l := by
  intro fuel
  induction fuel with
  | zero =>
    intro l hl
    have hnil : l = [] := List.length_eq_zero.mp (Nat.le_zero.mp hl)
    subst hnil
    rfl
  | succ n ih =>
    intro l hl
    cases l with
    | nil => rfl
    | cons x xs =>
      simp only [chunkListAux, List.flatten_cons]
      rw [ih (xs.drop (bs - 1)) (by simp [List.length_drop]; simp at hl; omega)]
      rw [List.cons_append, List.take_append_drop]

lemma chunkList_flatten {α : Type} (bs : Nat) (l : List α) :
    (chunkList bs l).flatten = l :=
  chunkListAux_flatten bs l.length l le_rfl

/-- The AI-stage record update never changes the deduplication key. -/
lemma dedupKey_applyAIResult (s : Secret) (r : AIResult) :
    dedupKey (applyAIResult s r) = dedupKey s := rfl

/-- Live validation never changes the deduplication key. -/
lemma dedupKey_validate_secret
    (lookup : String → Option (Secret → CheckOutcome)) (s : Secret) :
    dedupKey (APIValidator.validate_secret lookup s) = dedupKey s := by
  unfold APIValidator.validate_secret
  cases hl : lookup s.type with
  | none => rfl
  | some checker =>
    cases hc : checker s with
    | ok isValid details =>
      cases isValid <;> simp [hc, dedupKey]
    | err msg => simp [hc, dedupKey]

lemma applyBatchResults_map_key :
    ∀ (b : List Secret) (rs : List AIResult),
      (applyBatchResults b rs).map dedupKey = b.map dedupKey := by
  intro b
  induction b with
  | nil => intro rs; cases rs <;> rfl
  | cons s rest ih =>
    intro rs
    cases rs with
    | nil => rfl
    | cons r rs2 =>
      simp [applyBatchResults, ih, dedupKey_applyAIResult]

lemma processBatch_map_key (provider : List Secret → Option (List AIResult))
    (b : List Secret) :
    (processBatch provider b).map dedupKey = b.map dedupKey := by
  unfold processBatch
  cases provider b with
  | none => rfl
  | some rs => exact applyBatchResults_map_key b rs

lemma flatten_map_map_key (f : List Secret → List Secret)
    (hf : ∀ b, (f b).map dedupKey = b.map dedupKey) :
    ∀ L : List (List Secret),
      ((L.map f).flatten).map dedupKey = (L.flatten).map dedupKey := by
  intro L
  induction L with
  | nil => rfl
  | cons b L ih => simp [List.map_append, ih, hf]

/-- `AIValidator.validate_batch` preserves the per-position identity keys,
in particular the length and order of the record list. -/
lemma validate_batch_map_key (client : Bool) (bs : Nat)
    (provider : List Secret → Option (List AIResult)) (secrets : List Secret) :
    (AIValidator.validate_batch client bs provider secrets).map dedupKey =
      secrets.map dedupKey := by
  unfold AIValidator.validate_batch
  split
  · rw [flatten_map_map_key (processBatch provider) (processBatch_map_key provider),
      chunkList_flatten]
  · rfl

lemma validate_batch_length (client : Bool) (bs : Nat)
    (provider : List Secret → Option (List AIResult)) (secrets : List Secret) :
    (AIValidator.validate_batch client bs provider secrets).length =
      secrets.length := by
  have h := congrArg List.length (validate_batch_map_key client bs provider secrets)
  simpa using h

/-- The confidence-to-status bands of the threshold update, with the
boundaries as the code computes them. -/
lemma updateStatus_band_iff (c : ℚ) :
    (updateStatusFromConfidence c = Status.UNVERIFIED ↔ c < 30) ∧
    (updateStatusFromConfidence c = Status.POSSIBLE ↔ 30 ≤ c ∧ c < 60) ∧
    (updateStatusFromConfidence c = Status.LIKELY ↔ 60 ≤ c ∧ c < 85) ∧
    (updateStatusFromConfidence c = Status.CONFIRMED ↔ 85 ≤ c) := by
  unfold updateStatusFromConfidence
  split_ifs with h1 h2 h3 <;>
    refine ⟨⟨fun hs => ?_, fun hc => ?_⟩, ⟨fun hs => ?_, fun hc => ?_⟩,
      ⟨fun hs => ?_, fun hc => ?_⟩, ⟨fun hs => ?_, fun hc => ?_⟩⟩ <;>
    first
      | rfl
      | (exact absurd hs (by decide))
      | linarith
      | (constructor <;> linarith)

/-- A sample record used to instantiate witnesses. -/
def sampleSecret : Secret :=
  { type := "github_token", value := "ghp_sampletoken12345", location := "app.py" }

/-! ## C10 -/

/-- C10: for every record whose `ai_confidence` lies in [0, 100], the
composite score of `Secret.get_score` (regex +20, entropy +15/+10, up to
+40 from the AI confidence, +25 for a valid live check, capped at 100)
lies in [0, 100]. -/
theorem c10_get_score_bounds (s : Secret)
    (h0 : 0 ≤ s.ai_confidence) (_h1 : s.ai_confidence ≤ 100) :
    0 ≤ s.get_score ∧ s.get_score ≤ 100 := by
  unfold Secret.get_score
  constructor
  · refine le_min ?_ (by norm_num)
    have hai : (0 : ℚ) ≤ s.ai_confidence / 100 * 40 := by positivity
    split_ifs <;> linarith
  · exact min_le_right _ _

/-- C10 witness: the bounds hold at a concrete record. -/
theorem c10_witness :
    0 ≤ sampleSecret.get_score ∧ sampleSecret.get_score ≤ 100 :=
  c10_get_score_bounds sampleSecret (by norm_num [sampleSecret]) (by norm_num [sampleSecret])

/-! ## C6 -/

/-- C6 counterexample: a provider may return a non-integral confidence such
as 59.5; the code then assigns status POSSIBLE although 59.5 is not ≤ 59,
so the claimed band "POSSIBLE iff 30 ≤ aiConfidence ≤ 59" is violated. -/
theorem c6_inclusive_upper_bound_cex :
    AIValidator.validate_batch true 10 (fun _ => some [{ confidence := 59.5 }])
        [sampleSecret] =
      [{ sampleSecret with ai_confidence := 59.5, status := Status.POSSIBLE }] ∧
    ¬ ((59.5 : ℚ) ≤ 59) := by
  constructor
  · simp [AIValidator.validate_batch, chunkList, chunkListAux, processBatch,
      applyBatchResults, applyAIResult, updateStatusFromConfidence, sampleSecret]
    norm_num
  · norm_num

/-- C6 amended: after the AI stage successfully scores a record, `status`
is a function of the assigned confidence alone, with bands inclusive on the
lower bound and exclusive on the upper bound: UNVERIFIED iff c < 30,
POSSIBLE iff 30 ≤ c < 60, LIKELY iff 60 ≤ c < 85, CONFIRMED iff c ≥ 85
(for integral confidences this is 30-59 resp. 60-84); the six boundary
values 29, 30, 59, 60, 84, 85 map to UNVERIFIED, POSSIBLE, POSSIBLE,
LIKELY, LIKELY, CONFIRMED; severity is not altered by this stage. -/
theorem c6_threshold_bands (s : Secret) (r : AIResult) :
    (applyAIResult s r).ai_confidence = r.confidence ∧
    (applyAIResult s r).severity = s.severity ∧
    ((applyAIResult s r).status = Status.UNVERIFIED ↔ r.confidence < 30) ∧
    ((applyAIResult s r).status = Status.POSSIBLE ↔
      30 ≤ r.confidence ∧ r.confidence < 60) ∧
    ((applyAIResult s r).status = Status.LIKELY ↔
      60 ≤ r.confidence ∧ r.confidence < 85) ∧
    ((applyAIResult s r).status = Status.CONFIRMED ↔ 85 ≤ r.confidence) ∧
    [(29 : ℚ), 30, 59, 60, 84, 85].map updateStatusFromConfidence =
      [Status.UNVERIFIED, Status.POSSIBLE, Status.POSSIBLE,
       Status.LIKELY, Status.LIKELY, Status.CONFIRMED] := by
  have hb := updateStatus_band_iff r.confidence
  refine ⟨rfl, rfl, hb.1, hb.2.1, hb.2.2.1, hb.2.2.2, ?_⟩
  norm_num [updateStatusFromConfidence]

/-! ## C4 -/

/-- A record that an earlier stage classified CONFIRMED and CRITICAL. -/
def c4prior : Secret :=
  { type := "stripe_secret_key", value := "sk_live_sample", location := "cfg.py",
    status := Status.CONFIRMED, severity := Severity.CRITICAL }

/-- C4 counterexample: the AI stage processes a record already classified
CONFIRMED and, receiving confidence 10, rewrites its status to UNVERIFIED,
a strict downgrade in the status order. -/
theorem c4_ai_downgrade_cex :
    AIValidator.validate_batch true 10
        (fun _ => some [{ confidence := 10, reasoning := "test placeholder" }])
        [c4prior] =
      [{ c4prior with
          ai_confidence := 10
          ai_reasoning := "test placeholder"
          status := Status.UNVERIFIED }] ∧
    statusRank Status.UNVERIFIED < statusRank Status.CONFIRMED := by
  constructor
  · simp [AIValidator.validate_batch, chunkList, chunkListAux, processBatch,
      applyBatchResults, applyAIResult, updateStatusFromConfidence, c4prior]
    norm_num
  · decide

/-- C4 amended: the live validator never lowers status or severity (it
escalates to CONFIRMED/CRITICAL on a valid check and otherwise leaves both
fields as set by earlier stages), and the AI stage never changes severity;
but the AI stage sets status purely from the returned confidence,
overwriting - and possibly lowering - any status set earlier, so status
monotonicity does not hold for the confidence validator. -/
theorem c4_escalation_amended (s : Secret)
    (lookup : String → Option (Secret → CheckOutcome)) (r : AIResult) :
    statusRank s.status ≤ statusRank (APIValidator.validate_secret lookup s).status ∧
    severityRank s.severity ≤
      severityRank (APIValidator.validate_secret lookup s).severity ∧
    (applyAIResult s r).severity = s.severity ∧
    (applyAIResult s r).status = updateStatusFromConfidence r.confidence := by
  refine ⟨?_, ?_, rfl, rfl⟩ <;>
    · unfold APIValidator.validate_secret
      cases hl : lookup s.type with
      | none => simp
      | some checker =>
        cases hc : checker s with
        | ok isValid details =>
          cases isValid <;>
            simp [hc, statusRank_le_confirmed, severityRank_le_critical]
        | err msg => simp [hc]

/-! ## C8 -/

/-- C8: when a live checker returns `(True, details)` the validator sets
`api_valid = True`, status CONFIRMED and severity CRITICAL regardless of
the prior classification; when it returns `(False, details)` it sets
`api_valid = False` and leaves status and severity unchanged. -/
theorem c8_live_confirmation
    (lookup : String → Option (Secret → CheckOutcome)) (s : Secret)
    (checker : Secret → CheckOutcome) (hl : lookup s.type = some checker) :
    (∀ d, checker s = CheckOutcome.ok true d →
      (APIValidator.validate_secret lookup s).api_valid = some true ∧
      (APIValidator.validate_secret lookup s).status = Status.CONFIRMED ∧
      (APIValidator.validate_secret lookup s).severity = Severity.CRITICAL ∧
      (APIValidator.validate_secret lookup s).api_details = d) ∧
    (∀ d, checker s = CheckOutcome.ok false d →
      (APIValidator.validate_secret lookup s).api_valid = some false ∧
      (APIValidator.validate_secret lookup s).status = s.status ∧
      (APIValidator.validate_secret lookup s).severity = s.severity ∧
      (APIValidator.validate_secret lookup s).api_details = d) := by
  constructor <;> intro d hc <;>
    · unfold APIValidator.validate_secret
      simp only [hl, hc]
      simp

/-- A lookup whose checker confirms every record. -/
def c8lookupValid : String → Option (Secret → CheckOutcome) :=
  fun _ => some (fun _ => CheckOutcome.ok true [("username", "octocat")])

/-- A lookup whose checker rejects every record. -/
def c8lookupInvalid : String → Option (Secret → CheckOutcome) :=
  fun _ => some (fun _ => CheckOutcome.ok false [("error", "HTTP 401")])

/-- C8 witness: both branches evaluated at a concrete record. -/
theorem c8_witness :
    ((APIValidator.validate_secret c8lookupValid sampleSecret).status =
        Status.CONFIRMED ∧
      (APIValidator.validate_secret c8lookupValid sampleSecret).severity =
        Severity.CRITICAL) ∧
    ((APIValidator.validate_secret c8lookupInvalid sampleSecret).api_valid =
        some false ∧
      (APIValidator.validate_secret c8lookupInvalid sampleSecret).status =
        sampleSecret.status) := by
  have h1 := (c8_live_confirmation c8lookupValid sampleSecret
    (fun _ => CheckOutcome.ok true [("username", "octocat")]) rfl).1
    [("username", "octocat")] rfl
  have h2 := (c8_live_confirmation c8lookupInvalid sampleSecret
    (fun _ => CheckOutcome.ok false [("error", "HTTP 401")]) rfl).2
    [("error", "HTTP 401")] rfl
  exact ⟨⟨h1.2.1, h1.2.2.1⟩, ⟨h2.1, h2.2.1⟩⟩

/-! ## C3 -/

/-- A record that carries pre-existing live details. -/
def c3secret : Secret :=
  { type := "github_token", value := "ghp_tok", location := "cfg.py",
    api_details := [("stale", "detail")] }

/-- A lookup whose checker raises a transport error for every record. -/
def c3lookupErr : String → Option (Secret → CheckOutcome) :=
  fun _ => some (fun _ => CheckOutcome.err "connection timed out")

/-- C3 counterexample: when the checker raises, the handler sets
`api_valid = None` but does not write `api_details`; the record keeps its
previous details instead of the claimed mapping with the error message. -/
theorem c3_missing_error_details_cex :
    (APIValidator.validate_secret c3lookupErr c3secret).api_valid = none ∧
    (APIValidator.validate_secret c3lookupErr c3secret).api_details =
      [("stale", "detail")] ∧
    (APIValidator.validate_secret c3lookupErr c3secret).api_details ≠
      [("error", "connection timed out")] := by
  decide

/-- C3 amended: when a per-type checker raises, the validator does not
propagate the exception; it sets that record's `api_valid` to None
(unknown) and leaves every other field - including `api_details` - as it
was, and every other record of the batch is validated as usual. -/
theorem c3_error_isolation
    (lookup : String → Option (Secret → CheckOutcome)) (s : Secret)
    (checker : Secret → CheckOutcome) (msg : String)
    (hl : lookup s.type = some checker)
    (hc : checker s = CheckOutcome.err msg) :
    APIValidator.validate_secret lookup s = { s with api_valid := none } ∧
    ∀ pre post : List Secret,
      APIValidator.validate_batch lookup (pre ++ s :: post) =
        pre.map (APIValidator.validate_secret lookup) ++
          { s with api_valid := none } ::
            post.map (APIValidator.validate_secret lookup) := by
  have h1 : APIValidator.validate_secret lookup s = { s with api_valid := none } := by
    unfold APIValidator.validate_secret
    simp only [hl, hc]
  refine ⟨h1, fun pre post => ?_⟩
  unfold APIValidator.validate_batch
  rw [List.map_append, List.map_cons, h1]

/-- C3 witness: the amended behavior at a concrete record and batch. -/
theorem c3_witness :
    APIValidator.validate_secret c3lookupErr c3secret =
      { c3secret with api_valid := none } ∧
    APIValidator.validate_batch c3lookupErr [c3secret] =
      [{ c3secret with api_valid := none }] := by
  have h := c3_error_isolation c3lookupErr c3secret
    (fun _ => CheckOutcome.err "connection timed out") "connection timed out" rfl rfl
  refine ⟨h.1, ?_⟩
  have h2 := h.2 [] []
  simpa using h2

/-! ## C2 -/

/-- The literal both engines match in the counterexample scenario. -/
def c2value : String := "aGVsbG8xMjM0NTY3ODkw"

/-- The rule-engine record for the shared literal. -/
def c2pattern : Secret :=
  PatternMatcher.mkSecret "generic_api_key" c2value "config.js" 3 "ctx" "js"
    Severity.HIGH

/-- The entropy-engine record for the same literal at the same location and
line. -/
def c2entropy : Secret :=
  EntropyAnalyzer.mkSecret c2value "config.js" 3 "ctx" 4

/-- C2 counterexample: the rule engine and the entropy engine emit records
for the same literal at the same location and line, but deduplication keys
on `(type, value, location)` and the two records carry different types
(the rule name versus "high_entropy_string"), so both survive: the result
has two records, not one. -/
theorem c2_cross_engine_dedup_cex :
    c2pattern.value = c2entropy.value ∧
    c2pattern.location = c2entropy.location ∧
    c2pattern.line_number = c2entropy.line_number ∧
    SecretsScanner.deduplicate_secrets [c2pattern, c2entropy] =
      [c2pattern, c2entropy] ∧
    (SecretsScanner.deduplicate_secrets [c2pattern, c2entropy]).length ≠ 1 := by
  decide

/-- C2 amended: deduplication collapses two records into one - keeping the
first - exactly when they agree on the `(type, value, location)` key;
records for the same literal at the same location produced by the two
engines have different types (the rule name versus "high_entropy_string"),
so they are both kept and never collapse. -/
theorem c2_dedup_amended :
    (∀ s1 s2 : Secret, dedupKey s1 = dedupKey s2 →
      SecretsScanner.deduplicate_secrets [s1, s2] = [s1]) ∧
    (∀ (name v loc : String) (ln1 ln2 : Nat) (ctx1 ctx2 ft : String)
        (sev : Severity) (ent : ℚ),
      name ≠ "high_entropy_string" →
      SecretsScanner.deduplicate_secrets
          [PatternMatcher.mkSecret name v loc ln1 ctx1 ft sev,
           EntropyAnalyzer.mkSecret v loc ln2 ctx2 ent] =
        [PatternMatcher.mkSecret name v loc ln1 ctx1 ft sev,
         EntropyAnalyzer.mkSecret v loc ln2 ctx2 ent]) := by
  constructor
  · intro s1 s2 h
    simp [SecretsScanner.deduplicate_secrets, dedupAux, h]
  · intro name v loc ln1 ln2 ctx1 ctx2 ft sev ent h
    have hne : ("high_entropy_string", v, loc) ≠ (name, v, loc) := by
      intro hcontra
      exact h (congrArg Prod.fst hcontra).symm
    simp [SecretsScanner.deduplicate_secrets, dedupAux, dedupKey,
      PatternMatcher.mkSecret, EntropyAnalyzer.mkSecret, hne]

/-- C2 witness: the amended statement at concrete records: a genuine
key-equal duplicate collapses keeping the first, and the two cross-engine
records are both kept. -/
theorem c2_witness :
    SecretsScanner.deduplicate_secrets [c2entropy, c2entropy] = [c2entropy] ∧
    SecretsScanner.deduplicate_secrets [c2pattern, c2entropy] =
      [c2pattern, c2entropy] :=
  ⟨c2_dedup_amended.1 c2entropy c2entropy rfl,
   c2_dedup_amended.2 "generic_api_key" c2value "config.js" 3 3 "ctx" "ctx" "js"
     Severity.HIGH 4 (by decide)⟩

/-! ## C1 -/

/-- A completed scan whose single record was classified CONFIRMED without
any live validation (`api_valid` is still None, as after an AI score of
at least 85). -/
def c1finding : Finding :=
  { target := "repo"
    secrets := [{ type := "github_token"
                  value := "ghp_abc"
                  location := "a.py"
                  ai_confidence := 90
                  status := Status.CONFIRMED }] }

/-- C1 counterexample: a completed scan containing a secret with status
CONFIRMED but no live confirmation (`api_valid` is not True for any
record) exits with code 2, where the claim requires exit code 1 when no
secret is live-confirmed. -/
theorem c1_exit_code_cex :
    mainExitCode (ScanOutcome.completed c1finding) = 2 ∧
    c1finding.secrets.all (fun s => !(s.api_valid == some true)) = true ∧
    mainExitCode (ScanOutcome.completed c1finding) ≠ 1 := by
  decide

/-- C1 amended: for a completed scan the exit code is 2 iff some record
has status CONFIRMED (which live confirmation guarantees, but which an AI
confidence of at least 85 also produces without live confirmation), 1 iff
records exist and none has status CONFIRMED, 0 iff no records were found;
an interrupted scan exits with 130. -/
theorem c1_exit_code_amended (f : Finding) :
    (mainExitCode (ScanOutcome.completed f) = 2 ↔
      ∃ s ∈ f.secrets, s.status = Status.CONFIRMED) ∧
    (mainExitCode (ScanOutcome.completed f) = 1 ↔
      f.secrets ≠ [] ∧ ∀ s ∈ f.secrets, s.status ≠ Status.CONFIRMED) ∧
    (mainExitCode (ScanOutcome.completed f) = 0 ↔ f.secrets = []) ∧
    mainExitCode ScanOutcome.interrupted = 130 := by
  have hconf : f.get_confirmed_secrets ≠ [] ↔
      ∃ s ∈ f.secrets, s.status = Status.CONFIRMED := by
    rw [Ne, Finding.get_confirmed_secrets, List.filter_eq_nil_iff]
    push_neg
    simp
  have hempty : f.get_confirmed_secrets = [] ↔
      ∀ s ∈ f.secrets, s.status ≠ Status.CONFIRMED := by
    rw [Finding.get_confirmed_secrets, List.filter_eq_nil_iff]
    simp
  refine ⟨?_, ?_, ?_, rfl⟩ <;> simp only [mainExitCode] <;> split_ifs with h1 h2
  · simpa using hconf.mp h1
  · have hno : ¬∃ s ∈ f.secrets, s.status = Status.CONFIRMED :=
      fun hex => (hconf.mpr hex) (not_not.mp h1)
    simpa using hno
  · have hno : ¬∃ s ∈ f.secrets, s.status = Status.CONFIRMED :=
      fun hex => (hconf.mpr hex) (not_not.mp h1)
    simpa using hno
  · simpa using fun _ => hconf.mp h1
  · simpa using ⟨h2, hempty.mp (not_not.mp h1)⟩
  · simpa using fun hne => (hne (not_not.mp h2)).elim
  · have hne : f.secrets ≠ [] := by
      obtain ⟨s, hs, _⟩ := hconf.mp h1
      exact List.ne_nil_of_mem hs
    simpa using hne
  · simpa using h2
  · simpa using not_not.mp h2

/-! ## C5 -/

/-- C5: the AI batch stage never loses or alters records on provider
failure: the output always has exactly as many records as the input; if
the provider fails on every batch the whole input is returned unchanged;
and any single batch on which the provider call fails (raises, or returns
output that cannot be parsed, both modelled by `none`) reappears in the
output contiguously and byte-identical, surrounded by the processed
remainder. -/
theorem c5_batch_failure_isolation (bs : Nat)
    (provider : List Secret → Option (List AIResult)) (secrets : List Secret) :
    (AIValidator.validate_batch true bs provider secrets).length =
      secrets.length ∧
    ((∀ b, provider b = none) →
      AIValidator.validate_batch true bs provider secrets = secrets) ∧
    (∀ b ∈ chunkList bs secrets, provider b = none →
      ∃ pre post,
        AIValidator.validate_batch true bs provider secrets = pre ++ b ++ post) := by
  refine ⟨validate_batch_length true bs provider secrets, ?_, ?_⟩
  · intro hall
    unfold AIValidator.validate_batch
    rw [if_pos rfl]
    have hmap : (chunkList bs secrets).map (processBatch provider) =
        chunkList bs secrets := by
      apply List.map_id''
      intro b
      unfold processBatch
      rw [hall b]
    rw [hmap, chunkList_flatten]
  · intro b hb hpb
    obtain ⟨L1, L2, hL⟩ := List.append_of_mem hb
    refine ⟨(L1.map (processBatch provider)).flatten,
      (L2.map (processBatch provider)).flatten, ?_⟩
    unfold AIValidator.validate_batch
    rw [if_pos rfl, hL]
    have hpbb : processBatch provider b = b := by
      unfold processBatch
      rw [hpb]
    simp [List.map_append, List.flatten_append, hpbb]

/-- C5 witness: a provider that always fails leaves a concrete two-record
input unchanged and of the same length. -/
theorem c5_witness :
    (AIValidator.validate_batch true 2 (fun _ => none)
        [sampleSecret, c3secret]).length = [sampleSecret, c3secret].length ∧
    AIValidator.validate_batch true 2 (fun _ => none) [sampleSecret, c3secret] =
      [sampleSecret, c3secret] :=
  ⟨(c5_batch_failure_isolation 2 (fun _ => none) [sampleSecret, c3secret]).1,
   (c5_batch_failure_isolation 2 (fun _ => none) [sampleSecret, c3secret]).2.1
     (fun _ => rfl)⟩

/-! ## C7 -/

/-- C7: the validation step of the pipeline keeps every input record: the
output list has the same length, and position by position the same
`(type, value, location)` identity, as the input; the AI-confidence
reporting threshold only decides which records are live-validated, never
which records appear in the result. -/
theorem c7_no_record_dropped (enable_ai client : Bool) (bs : Nat)
    (provider : List Secret → Option (List AIResult)) (thr : ℚ)
    (enable_api : Bool) (lookup : String → Option (Secret → CheckOutcome))
    (secrets : List Secret) :
    (SecretsScanner.validate_secrets enable_ai client bs provider thr
        enable_api lookup secrets).map dedupKey = secrets.map dedupKey ∧
    (SecretsScanner.validate_secrets enable_ai client bs provider thr
        enable_api lookup secrets).length = secrets.length := by
  have hpoint : ∀ (f : Secret → Secret), (∀ s, dedupKey (f s) = dedupKey s) →
      ∀ l : List Secret, (l.map f).map dedupKey = l.map dedupKey := by
    intro f hf l
    rw [List.map_map]
    apply List.map_congr_left
    intro s _
    exact hf s
  have hmap : (SecretsScanner.validate_secrets enable_ai client bs provider thr
      enable_api lookup secrets).map dedupKey = secrets.map dedupKey := by
    unfold SecretsScanner.validate_secrets
    by_cases hnil : secrets = []
    · subst hnil
      simp
    · rw [if_neg hnil]
      dsimp only
      split
      · split
        · refine Eq.trans (hpoint _ ?_ _)
            (validate_batch_map_key client bs provider secrets)
          intro s
          split <;> first | exact dedupKey_validate_secret lookup s | rfl
        · exact validate_batch_map_key client bs provider secrets
      · split
        · refine Eq.trans (hpoint _ ?_ _) rfl
          intro s
          split <;> first | exact dedupKey_validate_secret lookup s | rfl
        · rfl
  refine ⟨hmap, ?_⟩
  have h := congrArg List.length hmap
  simpa using h

/-! ## C9 -/

lemma dedup_replicate_succ (c : Char) (n : ℕ) :
    (List.replicate (n + 1) c).dedup = [c] := by
  induction n with
  | zero => simp
  | succ n ih =>
    rw [List.replicate_succ,
      List.dedup_cons_of_mem (List.mem_replicate.mpr ⟨Nat.succ_ne_zero n, rfl⟩)]
    exact ih

/-- On a string whose distinct characters all occur exactly `m` times, the
accumulated entropy is exactly `log2` of the number of distinct
characters. -/
lemma calculate_entropy_uniform (data : String) (m : ℕ) (hm : 0 < m)
    (hc : ∀ c ∈ data.toList.dedup, data.toList.count c = m) :
    calculate_entropy data = Real.logb 2 (data.toList.dedup.length) := by
  by_cases hnil : data.toList = []
  · rw [calculate_entropy, if_pos hnil, hnil]
    simp
  · rw [calculate_entropy, if_neg hnil]
    set l := data.toList with hldef
    set k := l.dedup.length with hkdef
    have hk0 : k ≠ 0 := by
      intro h0
      apply hnil
      rwa [hkdef, List.length_eq_zero, List.dedup_eq_nil] at h0
    have hkR : (k : ℝ) ≠ 0 := Nat.cast_ne_zero.mpr hk0
    have hmR : (m : ℝ) ≠ 0 := Nat.cast_ne_zero.mpr hm.ne'
    have hconst : l.dedup.map (fun x => l.count x) = List.replicate k m := by
      have hmem : ∀ b ∈ l.dedup.map (fun x => l.count x), b = m := by
        intro b hb
        obtain ⟨c, hcmem, hcount⟩ := List.mem_map.mp hb
        rw [← hcount]
        exact hc c hcmem
      have h := List.eq_replicate_of_mem hmem
      rwa [List.length_map, ← hkdef] at h
    have hlen : l.length = k * m := by
      have hsum := List.sum_map_count_dedup_eq_length l
      rw [hconst, List.sum_replicate, smul_eq_mul] at hsum
      exact hsum.symm
    have hterm : ∀ c ∈ l.dedup,
        ((l.count c : ℝ) / (l.length : ℝ)) *
            Real.logb 2 ((l.count c : ℝ) / (l.length : ℝ)) =
          (1 / (k : ℝ)) * Real.logb 2 (1 / (k : ℝ)) := by
      intro c hcmem
      have h1 : (l.count c : ℝ) = (m : ℝ) := by exact_mod_cast congrArg Nat.cast (hc c hcmem)
      have h2 : (l.length : ℝ) = (k : ℝ) * (m : ℝ) := by exact_mod_cast hlen
      have h3 : (m : ℝ) / ((k : ℝ) * (m : ℝ)) = 1 / (k : ℝ) := by
        field_simp
        ring
      rw [h1, h2, h3]
    rw [List.map_congr_left hterm, List.map_const', List.sum_replicate, ← hkdef,
      nsmul_eq_mul, one_div, Real.logb_inv]
    field_simp

/-- C9: `calculate_entropy` computes the Shannon entropy
`-Σ p(c) * log2 p(c)` of the character-frequency distribution: equal to
the frequency-distribution sum for every string, 0 for the empty string,
0 for a single repeated character of any length, and exactly `log2 k` for
a string whose `k` distinct characters occur equally often. -/
theorem c9_shannon_entropy :
    (∀ data : String, calculate_entropy data =
      -∑ c ∈ data.toList.toFinset,
        ((data.toList.count c : ℝ) / (data.toList.length : ℝ)) *
          Real.logb 2 ((data.toList.count c : ℝ) / (data.toList.length : ℝ))) ∧
    calculate_entropy "" = 0 ∧
    (∀ (c : Char) (n : ℕ),
      calculate_entropy (String.mk (List.replicate n c)) = 0) ∧
    (∀ (data : String) (m : ℕ), 0 < m →
      (∀ c ∈ data.toList.dedup, data.toList.count c = m) →
      calculate_entropy data = Real.logb 2 (data.toList.dedup.length)) := by
  refine ⟨?_, ?_, ?_, fun data m hm hc => calculate_entropy_uniform data m hm hc⟩
  · intro data
    by_cases hnil : data.toList = []
    · rw [calculate_entropy, if_pos hnil, hnil]
      simp
    · rw [calculate_entropy, if_neg hnil]
      have hsum := List.sum_toFinset (fun c =>
          ((data.toList.count c : ℝ) / (data.toList.length : ℝ)) *
            Real.logb 2 ((data.toList.count c : ℝ) / (data.toList.length : ℝ)))
        (List.nodup_dedup data.toList)
      have hset : data.toList.dedup.toFinset = data.toList.toFinset := by
        ext x
        simp
      rw [hset] at hsum
      rw [← hsum]
  · rw [calculate_entropy]
    simp
  · intro c n
    cases n with
    | zero =>
      rw [calculate_entropy]
      simp
    | succ n =>
      have hcnt : ∀ x ∈ (String.mk (List.replicate (n + 1) c)).toList.dedup,
          (String.mk (List.replicate (n + 1) c)).toList.count x = n + 1 := by
        intro x hx
        have hxc : x = c :=
          List.eq_of_mem_replicate (List.mem_dedup.mp hx)
        rw [hxc]
        exact List.count_replicate_self c (n + 1)
      have h := calculate_entropy_uniform (String.mk (List.replicate (n + 1) c))
        (n + 1) (Nat.succ_pos n) hcnt
      rw [h]
      have hd : (String.mk (List.replicate (n + 1) c)).toList.dedup = [c] :=
        dedup_replicate_succ c n
      rw [hd]
      simp

/-- The sixteen hexadecimal digits, each occurring once. -/
def hexDigits : String := "0123456789abcdef"

/-- C9 witness: sixteen distinct uniformly-occurring characters give
entropy exactly 4. -/
theorem c9_witness : calculate_entropy hexDigits = 4 := by
  have h := c9_shannon_entropy.2.2.2 hexDigits 1 (by decide) (by decide)
  rw [h, show hexDigits.toList.dedup.length = 16 from by decide]
  rw [show ((16 : ℕ) : ℝ) = 2 ^ (4 : ℕ) by norm_num, Real.logb_pow]
  rw [Real.logb_self_eq_one (by norm_num)]
  norm_num

end SenSit
